import Mathlib

/-!
# Verification of the MRC core runtime spec against the source

Shallow embedding of the parts of the MRC repository that the claims
touch:

* pipeline validation (`valid_pipeline`, `ExecutorDefinition::register_pipeline`
  from `src/internal/executor/executor_definition.cpp`),
* executor lifecycle fan-out (`do_service_start` / `do_service_stop`),
* the control-plane client unary path (`Client::async_unary`,
  `Client::await_unary`, `AsyncStatus::await_response` from
  `src/internal/control_plane/client.hpp`),
* the edge-lifetime discipline exercised by `tests/test_edges.cpp`,
* `SubscriberProxy::on_next` from `src/python/srf/_pysrf/src/subscriber.cpp`.

Components of the repository whose implementation is not among the given
source files (the `PortGraph` constructor, the event-dispatch loop
`do_handle_event`, and the edge builder / edge-lifetime machinery) are
modelled from the specification text; each such definition carries a doc
comment starting with `Modelled from the spec:`.
-/

namespace MrcSpec

/-! ## Pipeline definitions and the port graph -/

/-- A segment definition: a named segment type together with the names of
the ports it uses as ingress and as egress.  Mirrors
`pipeline::SegmentDefinition` as consumed by `pipeline::PortGraph`. -/
structure SegmentDef where
  name : String
  ingressPorts : List String
  egressPorts : List String
deriving DecidableEq

/-- A pipeline definition: its collection of segment definitions.  Mirrors
`pipeline::PipelineDefinition`. -/
structure PipelineDef where
  segments : List SegmentDef
deriving DecidableEq

/-- Modelled from the spec: the set of port names appearing in the
pipeline, i.e. the key set of `PortGraph::port_map()`.  (`PortGraph`'s
constructor is not among the given sources; §4.5: "The `PortGraph` maps
each port name to the sets of segments that use it as ingress and egress
respectively".) -/
def portNames (p : PipelineDef) : List String :=
  (p.segments.flatMap (fun s => s.ingressPorts ++ s.egressPorts)).dedup

/-- Modelled from the spec: `port_map()[port].ingress_segments`, the set of
segment types that use `port` as an ingress port, represented as a
duplicate-free list of segment names. -/
def ingress_segments (p : PipelineDef) (port : String) : List String :=
  ((p.segments.filter (fun s => port ∈ s.ingressPorts)).map (fun s => s.name)).dedup

/-- Modelled from the spec: `port_map()[port].egress_segments`, the set of
segment types that use `port` as an egress port, represented as a
duplicate-free list of segment names. -/
def egress_segments (p : PipelineDef) (port : String) : List String :=
  ((p.segments.filter (fun s => port ∈ s.egressPorts)).map (fun s => s.name)).dedup

/-- `valid_pipeline` from `executor_definition.cpp` (lines 41–75): a
pipeline is valid when no port in the port map fails either check — (a)
`egress_segments.empty() or ingress_segments.empty()`, (b)
`egress_segments.size() > 1 or ingress_segments.size() > 1`.  The source
accumulates `valid = false` over all ports; the result is exactly the
conjunction over the port map. -/
def valid_pipeline (p : PipelineDef) : Bool :=
  (portNames p).all (fun port =>
    (!((egress_segments p port).isEmpty || (ingress_segments p port).isEmpty)) &&
    (!(decide ((egress_segments p port).length > 1) ||
       decide ((ingress_segments p port).length > 1))))

/-- `ExecutorDefinition::register_pipeline` (lines 101–115): if
`valid_pipeline` fails, throw `MrcRuntimeError("pipeline validation
failed")` without touching `m_registered_pipeline_defs`; otherwise append
the definition to `m_registered_pipeline_defs`. -/
def register_pipeline (registered : List PipelineDef) (p : PipelineDef) :
    Except String (List PipelineDef) :=
  if valid_pipeline p then
    Except.ok (registered ++ [p])
  else
    Except.error "pipeline validation failed"

/-! ## Executor lifecycle fan-out -/

/-- The children of the executor service: the runtime and the pipeline
managers held in `m_pipeline_managers`, identified by their index. -/
inductive Child where
  | runtime
  | pipelineManager (i : Nat)
deriving DecidableEq

/-- One lifecycle call issued by the executor on a child service. -/
inductive LifecycleAction where
  | start (c : Child)
  | awaitLive (c : Child)
  | registerDefs
  | stop (c : Child)
deriving DecidableEq

/-- `ExecutorDefinition::do_service_start` (lines 132–143): construct the
runtime, `service_start` it, `service_await_live` it, then hand the
registered pipeline definitions to the runtime's pipelines manager.  The
sequence of child lifecycle calls it issues, in order. -/
def do_service_start : List LifecycleAction :=
  [LifecycleAction.start Child.runtime,
   LifecycleAction.awaitLive Child.runtime,
   LifecycleAction.registerDefs]

/-- `ExecutorDefinition::do_service_stop` (lines 230–241): call
`m_runtime->service_stop()` first, then `service_stop` each entry of
`m_pipeline_managers` in stored order.  The sequence of child lifecycle
calls it issues, in order, as a function of the stored manager indices. -/
def do_service_stop (managers : List Nat) : List LifecycleAction :=
  LifecycleAction.stop Child.runtime ::
    managers.map (fun i => LifecycleAction.stop (Child.pipelineManager i))

/-! ## Control-plane client: unary request path -/

/-- `google::protobuf::Any` as the core sees it: an opaque payload tagged
by a type URL (§6: "`AnyPayload` is a tagged opaque payload with a type
URL and bytes"); the bytes are abstracted to a natural number. -/
structure AnyPayload where
  typeUrl : String
  value : Nat
deriving DecidableEq

/-- `protos::Event`: event type, 64-bit correlation tag, opaque payload,
and the optional carried error (`has_error()` / `error().message()`). -/
structure Event where
  event : Nat
  tag : Nat
  message : AnyPayload
  hasError : Bool
  errorMessage : String
deriving DecidableEq

/-- `event.message().UnpackTo(&response)`: unpacking succeeds exactly when
the payload's type URL is the expected response type's URL. -/
def unpackTo (expectedUrl : String) (m : AnyPayload) : Option Nat :=
  if m.typeUrl = expectedUrl then some m.value else none

/-- Outcome of `AsyncStatus::await_response`: the `Expected<ResponseT>`
return value (`ok` / `err`), or the thrown unpack-failure error. -/
inductive AwaitResult where
  | thrown (msg : String)
  | err (msg : String)
  | ok (value : Nat)
deriving DecidableEq

/-- `AsyncStatus::await_response` (client.hpp lines 254–271), given the
event that fulfilled the status's promise: if the event carries an error,
return `Error::create(event.error().message())`; otherwise unpack the
payload into the response type, throwing if the server sent the wrong
message type. -/
def await_response (expectedUrl : String) (e : Event) : AwaitResult :=
  if e.hasError then
    AwaitResult.err e.errorMessage
  else
    match unpackTo expectedUrl e.message with
    | none => AwaitResult.thrown
        "fatal error: unable to unpack message; server sent the wrong message type"
    | some v => AwaitResult.ok v

/-- The event written by `Client::async_unary` (client.hpp lines 286–294):
`set_event(event_type)`, `set_tag(address of the promise)`, pack the
request into `message`; no error field is set on an outgoing event. -/
def async_unary_event (eventType : Nat) (tag : Nat) (request : AnyPayload) : Event :=
  { event := eventType
    tag := tag
    message := request
    hasError := false
    errorMessage := "" }

/-- Modelled from the spec: the incoming-event dispatch of
`Client::do_handle_event` (its body is not among the given sources).
§4.8: "If the event carries a nonzero `tag` that matches a pending unary
promise, fulfill it … and remove it."  With removal, the promise for a
pending tag is fulfilled by the first incoming event carrying that tag. -/
def fulfillingEvent (tag : Nat) (incoming : List Event) : Option Event :=
  incoming.find? (fun e => e.tag == tag)

/-- The result `await_response` produces for the pending tag `tag` once
the incoming events have been dispatched in stream order: `none` when no
incoming event carries the tag (the call would still be blocked). -/
def await_response_for (expectedUrl : String) (tag : Nat) (incoming : List Event) :
    Option AwaitResult :=
  (fulfillingEvent tag incoming).map (await_response expectedUrl)

/-- `Client::await_unary` (client.hpp lines 278–284), translated from its
body as written: allocate an `AsyncStatus` (its promise address is the
fresh `tag`), run `async_unary` — which builds and writes the outgoing
event — then return `status.await_response()` against the incoming
events.  Result: the written event and the eventual response. -/
def await_unary (eventType : Nat) (tag : Nat) (request : AnyPayload)
    (expectedUrl : String) (incoming : List Event) : Event × Option AwaitResult :=
  let outgoing : Event :=
    { event := eventType
      tag := tag
      message := request
      hasError := false
      errorMessage := "" }
  let fulfilled := incoming.find? (fun e => e.tag == tag)
  (outgoing,
   fulfilled.map (fun e =>
     if e.hasError then
       AwaitResult.err e.errorMessage
     else
       match unpackTo expectedUrl e.message with
       | none => AwaitResult.thrown
           "fatal error: unable to unpack message; server sent the wrong message type"
       | some v => AwaitResult.ok v))

/-- The spec's description of `await_unary` (§4.8: "The synchronous
convenience `await_unary<Resp>(type, req)` composes the two"): perform
`async_unary` and then that status's `await_response`. -/
def await_unary_spec (eventType : Nat) (tag : Nat) (request : AnyPayload)
    (expectedUrl : String) (incoming : List Event) : Event × Option AwaitResult :=
  (async_unary_event eventType tag request,
   await_response_for expectedUrl tag incoming)

/-- `Client::State` (client.hpp lines 100–107). -/
inductive Client.State where
  | Disconnected
  | FailedToConnect
  | Connected
  | RegisteringWorkers
  | Operational
deriving DecidableEq

/-- What becomes of a user-initiated unary request: written to the
stream, queued internally, or failed with `not_ready`. -/
inductive RequestOutcome where
  | written (e : Event)
  | queued
  | notReady
deriving DecidableEq

/-- `Client::async_unary` as a function of the client's current state:
the body (client.hpp lines 286–294) builds the event and immediately
calls `m_writer->await_write(std::move(event))`; it never consults
`m_state`, queues nothing, and has no `not_ready` path. -/
def async_unary_in_state (_st : Client.State) (eventType : Nat) (tag : Nat)
    (request : AnyPayload) : RequestOutcome :=
  RequestOutcome.written (async_unary_event eventType tag request)

/-! ## Edge lifetime and single-fan connection discipline

Modelled from the spec: the edge builder and the edge-lifetime machinery
(`mrc::make_edge`, `SinkProperties` / `SourceProperties` edge ownership)
are not among the given sources; only `tests/test_edges.cpp` is.  §4.2
step 4 / Invariant E1 give the single-fan rule; Invariant E2 / §9 give
the lifetime rule: a connection is held (owned) by the acceptor side that
received the edge, destruction of the owner first retires its own edges,
and a node destroyed while a connection it does not own is still
unreleased is a fatal error (process abort). -/

/-- A live (unreleased) edge connection: `owner` is the node holding the
edge half (the acceptor side passed first to `make_edge`), `other` the
node whose provider half it references and which must outlive it. -/
structure EdgeConn where
  owner : Nat
  other : Nat
deriving DecidableEq

/-- The test world: live node ids, which of them are declared
multi-fan-out, and the live connections. -/
structure EdgeWorld where
  live : List Nat
  multiFan : List Nat
  conns : List EdgeConn
deriving DecidableEq

/-- A node has at least one live connection attached (on either end). -/
def isConnected (w : EdgeWorld) (n : Nat) : Bool :=
  w.conns.any (fun c => c.owner == n || c.other == n)

/-- The node is declared multi-fan-out. -/
def isMultiFan (w : EdgeWorld) (n : Nat) : Bool :=
  w.multiFan.contains n

/-- Errors `make_edge` raises synchronously (§7). -/
inductive EdgeError where
  | alreadyConnected
  | typeMismatch
deriving DecidableEq

/-- Modelled from the spec: `mrc::make_edge(producer, consumer)` restricted
to the connection-count discipline (§4.2 step 4): attaching an edge to an
endpoint that already has one and is not declared multi-fan-out fails with
`already_connected` and changes nothing; otherwise the new connection is
recorded, held by the producer side. -/
def make_edge (w : EdgeWorld) (producer consumer : Nat) : Except EdgeError EdgeWorld :=
  if (isConnected w producer && !isMultiFan w producer) ||
     (isConnected w consumer && !isMultiFan w consumer) then
    Except.error EdgeError.alreadyConnected
  else
    Except.ok { w with conns := ⟨producer, consumer⟩ :: w.conns }

/-- Modelled from the spec: destroying a node (Invariant E2, §9).
Destruction first retires the connections the node itself owns; but if a
live connection owned elsewhere still references the node, the violation
is detected and is fatal — modelled as `none` (process abort).  Otherwise
the node and its owned connections are removed. -/
def destroy_node (w : EdgeWorld) (n : Nat) : Option EdgeWorld :=
  if w.conns.any (fun c => c.other == n) then
    none
  else
    some { w with
      live := w.live.filter (fun m => m ≠ n)
      conns := w.conns.filter (fun c => c.owner ≠ n) }

/-! ## Python subscriber proxy -/

/-- The state visible to `SubscriberProxy` on a `PyObjectSubscriber`:
whether it is currently subscribed, and the values its own `on_next` has
received (Python objects abstracted to naturals). -/
structure PyObjectSubscriber where
  subscribed : Bool
  received : List Nat
deriving DecidableEq

/-- `self->is_subscribed()`. -/
def PyObjectSubscriber.is_subscribed (s : PyObjectSubscriber) : Bool :=
  s.subscribed

/-- `self->on_next(std::move(value))`: the underlying subscriber receives
the value. -/
def PyObjectSubscriber.on_next (s : PyObjectSubscriber) (v : Nat) : PyObjectSubscriber :=
  { s with received := s.received ++ [v] }

/-- `SubscriberProxy::on_next` (subscriber.cpp lines 45–52): check
`is_subscribed` before sending the value; forward when subscribed,
otherwise do nothing. -/
def SubscriberProxy.on_next (s : PyObjectSubscriber) (v : Nat) : PyObjectSubscriber :=
  if s.is_subscribed then s.on_next v else s

/-! ## Theorems -/

theorem register_pipeline_ok_iff_valid (registered : List PipelineDef) (p : PipelineDef) :
    (∃ l, register_pipeline registered p = Except.ok l) ↔ valid_pipeline p = true := by
  by_cases h : valid_pipeline p <;> simp [register_pipeline, h]

theorem valid_pipeline_iff (p : PipelineDef) :
    valid_pipeline p = true ↔
      ∀ port ∈ portNames p,
        ingress_segments p port ≠ [] ∧ egress_segments p port ≠ [] ∧
        (ingress_segments p port).length ≤ 1 ∧ (egress_segments p port).length ≤ 1 := by
  simp only [valid_pipeline, List.all_eq_true, Bool.and_eq_true, Bool.not_eq_true',
    Bool.or_eq_false_iff, decide_eq_false_iff_not, Nat.not_lt, List.isEmpty_eq_false]
  constructor <;> intro h port hp <;> have hh := h port hp <;> tauto

/-- C1: `register_pipeline` succeeds (returns without raising) if and only
if every port in the registered pipeline has at least one ingress segment
and at least one egress segment and no port is used by more than one
distinct segment type on its ingress side or on its egress side; otherwise
it raises the validation error. -/
theorem c1_register_pipeline_iff (registered : List PipelineDef) (p : PipelineDef) :
    ((∃ l, register_pipeline registered p = Except.ok l) ↔
      ∀ port ∈ portNames p,
        ingress_segments p port ≠ [] ∧ egress_segments p port ≠ [] ∧
        (ingress_segments p port).length ≤ 1 ∧ (egress_segments p port).length ≤ 1) ∧
    ((¬ ∀ port ∈ portNames p,
        ingress_segments p port ≠ [] ∧ egress_segments p port ≠ [] ∧
        (ingress_segments p port).length ≤ 1 ∧ (egress_segments p port).length ≤ 1) →
      register_pipeline registered p = Except.error "pipeline validation failed") := by
  constructor
  · exact (register_pipeline_ok_iff_valid registered p).trans (valid_pipeline_iff p)
  · intro hbad
    have hv : valid_pipeline p = false := by
      rcases hfalse : valid_pipeline p with _ | _
      · rfl
      · exact absurd ((valid_pipeline_iff p).mp hfalse) hbad
    simp [register_pipeline, hv]

/-- C1 witness: a concrete two-segment pipeline whose single port has one
ingress segment and one egress segment registers successfully. -/
theorem c1_witness :
    ∃ l, register_pipeline []
      ⟨[⟨"A", [], ["p"]⟩, ⟨"B", ["p"], []⟩]⟩ = Except.ok l :=
  (c1_register_pipeline_iff [] ⟨[⟨"A", [], ["p"]⟩, ⟨"B", ["p"], []⟩]⟩).1.mpr (by decide)

/-- The pipeline containing no segments. -/
def emptyPipeline : PipelineDef := ⟨[]⟩

/-- C6 counterexample: `register_pipeline` does not reject the empty
pipeline — its port map is empty, so `valid_pipeline` is vacuously true
and the definition is stored. -/
theorem c6_counterexample :
    register_pipeline [] emptyPipeline = Except.ok [emptyPipeline] := rfl

/-- C6 amended: for the empty pipeline, `register_pipeline` succeeds
(validation passes vacuously) and appends the definition to the list of
registered pipeline definitions. -/
theorem c6_empty_pipeline_accepted (registered : List PipelineDef) :
    register_pipeline registered emptyPipeline =
      Except.ok (registered ++ [emptyPipeline]) := rfl

/-- C8: validation is synchronous: for every pipeline that fails
validation, `register_pipeline` returns the validation error and never
produces an updated list of registered pipeline definitions, so the
executor's stored list is left unchanged. -/
theorem c8_invalid_pipeline_rejected (registered : List PipelineDef) (p : PipelineDef)
    (h : valid_pipeline p = false) :
    register_pipeline registered p = Except.error "pipeline validation failed" ∧
    ¬ ∃ l, register_pipeline registered p = Except.ok l := by
  constructor
  · simp [register_pipeline, h]
  · simp [register_pipeline, h]

/-- A pipeline with a single segment whose only port is egress-only. -/
def egressOnlyPipeline : PipelineDef := ⟨[⟨"A", [], ["p"]⟩]⟩

/-- C8 witness: the egress-only pipeline fails validation and its
registration returns the validation error. -/
theorem c8_witness :
    valid_pipeline egressOnlyPipeline = false ∧
    register_pipeline [] egressOnlyPipeline =
      Except.error "pipeline validation failed" :=
  ⟨by decide, (c8_invalid_pipeline_rejected [] egressOnlyPipeline (by decide)).1⟩

/-- C7 counterexample: with one registered pipeline manager,
`do_service_stop` stops the runtime first and the pipeline manager second
— not the reverse of the start dependency order, under which the runtime
(started first) would be stopped after the pipeline manager. -/
theorem c7_counterexample :
    do_service_stop [0] =
      [LifecycleAction.stop Child.runtime,
       LifecycleAction.stop (Child.pipelineManager 0)] ∧
    do_service_stop [0] ≠
      [LifecycleAction.stop (Child.pipelineManager 0),
       LifecycleAction.stop Child.runtime] := by
  constructor
  · rfl
  · decide

/-- C7 amended: `do_service_stop` propagates stop to the runtime first
and then to the pipeline managers in their stored (registration) order —
the same relative order as start, not the reverse. -/
theorem c7_stop_order (managers : List Nat) :
    (do_service_stop managers).head? = some (LifecycleAction.stop Child.runtime) ∧
    (do_service_stop managers).tail =
      managers.map (fun i => LifecycleAction.stop (Child.pipelineManager i)) :=
  ⟨rfl, rfl⟩

/-- C2: destroying a node while a live connection it does not own still
references it is detected and aborts the process (Invariant E2 / I3). -/
theorem c2_destroy_connected_aborts (w : EdgeWorld) (n : Nat) (c : EdgeConn)
    (hc : c ∈ w.conns) (hn : c.other = n) :
    destroy_node w n = none := by
  have hany : w.conns.any (fun c => c.other == n) = true :=
    List.any_eq_true.mpr ⟨c, hc, by simp [hn]⟩
  simp [destroy_node, hany]

/-- C2 witness: replay of `TestEdgesDeathTest.NodeDestroyedBeforeEdge` —
connect source 0 to sink 1, then reset the sink before the source; the
sink still has the unreleased connection attached, so its destruction
aborts. -/
theorem c2_witness :
    make_edge ⟨[0, 1], [], []⟩ 0 1 = Except.ok ⟨[0, 1], [], [⟨0, 1⟩]⟩ ∧
    destroy_node ⟨[0, 1], [], [⟨0, 1⟩]⟩ 1 = none :=
  ⟨rfl, c2_destroy_connected_aborts ⟨[0, 1], [], [⟨0, 1⟩]⟩ 1 ⟨0, 1⟩ (by decide) rfl⟩

/-- C5: for endpoints not declared multi-fan-out, the first `make_edge`
on a producer/consumer pair succeeds, a second `make_edge` attaching
another edge to the same producer endpoint fails with
`already_connected`, and afterwards all three endpoint objects can be
destroyed cleanly in the order the test uses (source, sink1, sink2),
leaving no live connection. -/
theorem c5_single_fan_second_edge_fails (s k1 k2 : Nat) (mf : List Nat)
    (h1 : s ≠ k1) (h2 : s ≠ k2) (h3 : k1 ≠ k2) (hmf : mf.contains s = false) :
    make_edge ⟨[s, k1, k2], mf, []⟩ s k1 = Except.ok ⟨[s, k1, k2], mf, [⟨s, k1⟩]⟩ ∧
    make_edge ⟨[s, k1, k2], mf, [⟨s, k1⟩]⟩ s k2 =
      Except.error EdgeError.alreadyConnected ∧
    destroy_node ⟨[s, k1, k2], mf, [⟨s, k1⟩]⟩ s = some ⟨[k1, k2], mf, []⟩ ∧
    destroy_node ⟨[k1, k2], mf, []⟩ k1 = some ⟨[k2], mf, []⟩ ∧
    destroy_node ⟨[k2], mf, []⟩ k2 = some ⟨[], mf, []⟩ := by
  have hs : s ∉ mf := by simpa using hmf
  refine ⟨?_, ?_, ?_, ?_, ?_⟩ <;>
    simp [make_edge, destroy_node, isConnected, isMultiFan, hs,
      h1, h2, h3, Ne.symm h1, Ne.symm h2, Ne.symm h3]

/-- C5 witness: the scenario of `TestEdges.SourceToSinkMultiFail` at
concrete endpoints 0 (source), 1 (sink1), 2 (sink2), none declared
multi-fan-out. -/
theorem c5_witness :
    make_edge ⟨[0, 1, 2], [], []⟩ 0 1 = Except.ok ⟨[0, 1, 2], [], [⟨0, 1⟩]⟩ ∧
    make_edge ⟨[0, 1, 2], [], [⟨0, 1⟩]⟩ 0 2 =
      Except.error EdgeError.alreadyConnected ∧
    destroy_node ⟨[0, 1, 2], [], [⟨0, 1⟩]⟩ 0 = some ⟨[1, 2], [], []⟩ ∧
    destroy_node ⟨[1, 2], [], []⟩ 1 = some ⟨[2], [], []⟩ ∧
    destroy_node ⟨[2], [], []⟩ 2 = some ⟨[], [], []⟩ :=
  c5_single_fan_second_edge_fails 0 1 2 []
    (by decide) (by decide) (by decide) (by decide)

/-- C3: the outgoing event built by `async_unary` carries the request's
tag, and for a pending tag `τ` fulfilled by the unique incoming event
carrying `τ`, `await_response` returns exactly the result decoded from
that event, for every relative arrival order (permutation) of the other
tagged events. -/
theorem c3_unary_correlation (expectedUrl : String) (eventType τ : Nat)
    (request : AnyPayload) (e : Event) (incoming incoming' : List Event)
    (he : e ∈ incoming) (hτ : e.tag = τ)
    (huniq : ∀ e' ∈ incoming, e'.tag = τ → e' = e)
    (hperm : incoming.Perm incoming') :
    (async_unary_event eventType τ request).tag = τ ∧
    await_response_for expectedUrl τ incoming' = some (await_response expectedUrl e) := by
  refine ⟨rfl, ?_⟩
  unfold await_response_for fulfillingEvent
  have hmem : e ∈ incoming' := hperm.mem_iff.mp he
  cases hfind : incoming'.find? (fun x => x.tag == τ) with
  | none =>
      exfalso
      have hnone := List.find?_eq_none.mp hfind e hmem
      simp [hτ] at hnone
  | some x =>
      have hx0 := List.find?_some hfind
      have hxm := List.mem_of_find?_eq_some hfind
      have hxe : x = e := huniq x (hperm.mem_iff.mpr hxm) (by simpa using hx0)
      simp [hxe]

/-- An incoming response event with tag 6, unrelated to the request under
test. -/
def otherEventA : Event := ⟨2, 6, ⟨"Y", 1⟩, false, ""⟩

/-- An incoming response event with tag 7, unrelated to the request under
test. -/
def otherEventB : Event := ⟨3, 7, ⟨"Z", 2⟩, false, ""⟩

/-- The incoming response event carrying the tag 5 under test. -/
def taggedEvent : Event := ⟨1, 5, ⟨"R", 42⟩, false, ""⟩

/-- C3 witness: with responses arriving in a different order than the
requests were issued, the promise for tag 5 is fulfilled by the event
carrying tag 5 and decodes to its payload. -/
theorem c3_witness :
    await_response_for "R" 5 [otherEventB, otherEventA, taggedEvent] =
      some (await_response "R" taggedEvent) ∧
    await_response "R" taggedEvent = AwaitResult.ok 42 :=
  ⟨(c3_unary_correlation "R" 1 5 ⟨"R", 41⟩ taggedEvent
      [otherEventA, taggedEvent, otherEventB] [otherEventB, otherEventA, taggedEvent]
      (by decide) rfl (by decide) (by decide)).2,
   by decide⟩

/-- C4 counterexample: in state `Disconnected` — not `Operational` — a
unary request is still written straight to the stream; it is neither
queued nor failed with `not_ready`. -/
theorem c4_counterexample :
    async_unary_in_state Client.State.Disconnected 1 5 ⟨"u", 0⟩ =
      RequestOutcome.written (async_unary_event 1 5 ⟨"u", 0⟩) ∧
    Client.State.Disconnected ≠ Client.State.Operational ∧
    async_unary_in_state Client.State.Disconnected 1 5 ⟨"u", 0⟩ ≠
      RequestOutcome.queued ∧
    async_unary_in_state Client.State.Disconnected 1 5 ⟨"u", 0⟩ ≠
      RequestOutcome.notReady :=
  ⟨rfl, by decide, by decide, by decide⟩

/-- C4 amended: `async_unary` writes the event to the stream
unconditionally, in every client state; the body consults no state and
has no queueing or `not_ready` path. -/
theorem c4_async_unary_unconditional (st : Client.State) (eventType tag : Nat)
    (request : AnyPayload) :
    async_unary_in_state st eventType tag request =
      RequestOutcome.written (async_unary_event eventType tag request) := rfl

/-- C9: for every event type, tag, request and incoming events, the
synchronous `await_unary` is equivalent to performing `async_unary` and
then returning that status's `await_response`: same outgoing event, same
`Expected` result. -/
theorem c9_await_unary_composes (eventType tag : Nat) (request : AnyPayload)
    (expectedUrl : String) (incoming : List Event) :
    await_unary eventType tag request expectedUrl incoming =
      await_unary_spec eventType tag request expectedUrl incoming := rfl

/-- C10: `SubscriberProxy::on_next` forwards the value to the underlying
subscriber exactly when the subscriber is currently subscribed; when it
is not subscribed the value is dropped, the subscriber receives no call,
and its state is unchanged. -/
theorem c10_on_next_gated (s : PyObjectSubscriber) (v : Nat) :
    (s.is_subscribed = true → SubscriberProxy.on_next s v = s.on_next v) ∧
    (s.is_subscribed = false → SubscriberProxy.on_next s v = s) ∧
    ((SubscriberProxy.on_next s v).received = s.received ++ [v] ↔
      s.is_subscribed = true) := by
  unfold SubscriberProxy.on_next PyObjectSubscriber.on_next PyObjectSubscriber.is_subscribed
  by_cases h : s.subscribed <;> simp [h]

/-- C10 witness: an unsubscribed subscriber is left unchanged by
`on_next`, and a subscribed one receives the value. -/
theorem c10_witness :
    SubscriberProxy.on_next ⟨false, []⟩ 7 = ⟨false, []⟩ ∧
    SubscriberProxy.on_next ⟨true, []⟩ 7 = PyObjectSubscriber.on_next ⟨true, []⟩ 7 :=
  ⟨(c10_on_next_gated ⟨false, []⟩ 7).2.1 rfl, (c10_on_next_gated ⟨true, []⟩ 7).1 rfl⟩

end MrcSpec
